import Mathlib

/-!
# DynamicLibrary (cuda_hook.h)

A shallow embedding of the class `DynamicLibrary` of `cuda_hook.h`: an RAII
wrapper around the dynamic loader (`dlopen`, `dlerror`, `dlsym`, `dlclose`).

The loader is the platform: it is a parameter of every operation, a record of
state-passing functions over an arbitrary loader state `σ`.  The object is a
record of its two data members.  Every member function takes the object and
the world (loader state, the loader calls made so far, the text written to
`std::cerr`) and returns its outcome together with the object and the world
after the call.  A C++ `throw` is an `Except.error`.
-/

namespace CudaHook

/-! ## Data model -/

/-- A `void *`: an address, `0` being the null pointer. -/
abbrev Ptr := Nat

/-- The null pointer. -/
def nullptr : Ptr := 0

/-- The classes of the exceptions thrown in `cuda_hook.h`. -/
inductive ExnKind where
  | runtime_error
  | invalid_argument
deriving DecidableEq, Repr

/-- A thrown exception: its class and the string given to its constructor. -/
structure Exn where
  kind : ExnKind
  what : String
deriving DecidableEq, Repr

/-- What a call into the loader does: it returns a value or it raises. -/
inductive Outcome (α : Type) where
  | returned (value : α)
  | raised
deriving DecidableEq, Repr

/-- A call into the dynamic loader, with its arguments. -/
inductive Call where
  | dlopen (file : String) (flags : Int)
  | dlerror
  | dlsym (handle : Ptr) (symbol : String)
  | dlclose (handle : Ptr)
deriving DecidableEq, Repr

/-- The dynamic loader of the platform (`<dlfcn.h>`), over a loader state `σ`.
A `const char *` is represented by the string it points to.  `dlclose` returns
its `int` status (zero on success, nonzero on failure); the source calls it in
a `try` block, so the call may also raise. -/
structure Loader (σ : Type) where
  RTLD_LAZY : Int
  dlopen : String → Int → σ → Ptr × σ
  dlerror : σ → String × σ
  dlsym : Ptr → String → σ → Ptr × σ
  dlclose : Ptr → σ → Outcome Int × σ

/-- The world a member function runs in. -/
structure World (σ : Type) where
  /-- state of the dynamic loader -/
  loader : σ
  /-- calls made into the loader so far, oldest first -/
  calls : List Call
  /-- text written to `std::cerr` so far -/
  cerr : String

/-- The data members of `class DynamicLibrary`. -/
structure DynamicLibrary where
  lib_name_ : String
  handle_ : Ptr
deriving DecidableEq, Repr

/-- The member `std::string::c_str()` as seen by a C function: the characters
before the first NUL. -/
def c_str (s : String) : String :=
  ⟨s.data.takeWhile (fun c => c ≠ '\x00')⟩

/-! ## Member functions -/

/-- The constructor `DynamicLibrary(const std::string &name)`. -/
def DynamicLibrary.new {σ : Type} (L : Loader σ) (name : String) (w : World σ) :
    Except Exn DynamicLibrary × World σ :=
  let lib_name_ := name
  let flags := L.RTLD_LAZY
  let r := L.dlopen (c_str lib_name_) flags w.loader
  let handle_ := r.1
  let w1 : World σ := ⟨r.2, w.calls ++ [Call.dlopen (c_str lib_name_) flags], w.cerr⟩
  if handle_ = nullptr then
    let d := L.dlerror w1.loader
    let w2 : World σ := ⟨d.2, w1.calls ++ [Call.dlerror], w1.cerr⟩
    let errorStr := " due to " ++ d.1
    (Except.error ⟨ExnKind.runtime_error, "Unable to open library: " ++ lib_name_ ++ errorStr⟩, w2)
  else
    (Except.ok ⟨lib_name_, handle_⟩, w1)

/-- The member function `void *SymbolAddress(const char *name)`. -/
def DynamicLibrary.SymbolAddress {σ : Type} (L : Loader σ) (self : DynamicLibrary)
    (name : String) (w : World σ) : Except Exn Ptr × DynamicLibrary × World σ :=
  if self.handle_ = nullptr then
    (Except.error ⟨ExnKind.runtime_error, "Handle to library is nullptr"⟩, self, w)
  else
    let r := L.dlsym self.handle_ name w.loader
    let ret := r.1
    let w1 : World σ := ⟨r.2, w.calls ++ [Call.dlsym self.handle_ name], w.cerr⟩
    if ret = nullptr then
      let kERROR_MSG := self.lib_name_ ++ ": error loading symbol: " ++ name
      (Except.error ⟨ExnKind.invalid_argument, kERROR_MSG⟩, self, w1)
    else
      (Except.ok ret, self, w1)

/-- The destructor `~DynamicLibrary()`: `dlclose(handle_)` in a `try` block
whose `catch (...)` handler writes a line to `std::cerr`. -/
def DynamicLibrary.delete {σ : Type} (L : Loader σ) (self : DynamicLibrary)
    (w : World σ) : Except Exn Unit × World σ :=
  let r := L.dlclose self.handle_ w.loader
  let w1 : World σ := ⟨r.2, w.calls ++ [Call.dlclose self.handle_], w.cerr⟩
  match r.1 with
  | Outcome.returned _ => (Except.ok (), w1)
  | Outcome.raised =>
    (Except.ok (), ⟨w1.loader, w1.calls,
      w1.cerr ++ "Unable to close library: " ++ self.lib_name_ ++ "\n"⟩)

/-! ## Lifetime of an object -/

/-- A sequence of `SymbolAddress` calls on one object, each exception caught by
the caller; the outcomes are collected in call order. -/
def resolveAll {σ : Type} (L : Loader σ) (self : DynamicLibrary) :
    List String → World σ → List (Except Exn Ptr) × DynamicLibrary × World σ
  | [], w => ([], self, w)
  | name :: rest, w =>
    let r := DynamicLibrary.SymbolAddress L self name w
    let rs := resolveAll L r.2.1 rest r.2.2
    (r.1 :: rs.1, rs.2.1, rs.2.2)

/-- A scope that declares a `DynamicLibrary`, resolves the given symbols and
ends: when the constructor throws there is no object and no destructor runs,
otherwise the destructor runs at the end of the scope. -/
def lifetime {σ : Type} (L : Loader σ) (name : String) (symbols : List String)
    (w : World σ) : Except Exn (List (Except Exn Ptr)) × World σ :=
  match DynamicLibrary.new L name w with
  | (Except.error e, w1) => (Except.error e, w1)
  | (Except.ok lib, w1) =>
    let rs := resolveAll L lib symbols w1
    let d := DynamicLibrary.delete L rs.2.1 rs.2.2
    (Except.ok rs.1, d.2)

/-! ## Observations -/

/-- The handles passed to `dlclose` in a list of loader calls, oldest first. -/
def closeCalls : List Call → List Ptr
  | [] => []
  | Call.dlclose h :: cs => h :: closeCalls cs
  | _ :: cs => closeCalls cs

/-- The text `part` occurs in the text `msg`. -/
def Contains (msg part : String) : Prop :=
  ∃ pre post : String, msg = pre ++ part ++ post

/-- The outcome is a thrown exception. -/
def Throws {α : Type} (r : Except Exn α) : Prop :=
  ∃ e, r = Except.error e

/-- The class of the exception an outcome carries, if it is a thrown one. -/
def thrownKind {α : Type} : Except Exn α → Option ExnKind
  | Except.error e => some e.kind
  | Except.ok _ => none

/-- The lookup of the loader is a function of the handle and the symbol name:
its result does not depend on the loader state. -/
def LookupIsFunction {σ : Type} (L : Loader σ) : Prop :=
  ∀ (h : Ptr) (symbol : String) (s s' : σ), (L.dlsym h symbol s).1 = (L.dlsym h symbol s').1

/-! ## Sample loaders -/

/-- State of the sample loader: open sessions of the one library it knows and
the text of the last error. -/
structure SampleState where
  sessions : Nat
  lastError : String
deriving DecidableEq, Repr

/-- A loader that knows one library, `libm.so.6`, at handle `7`, exporting
`sqrt` at address `4096`.  The flag `closeStatus` is the status its `dlclose`
returns for that handle. -/
def sampleLoader (closeStatus : Int) : Loader SampleState where
  RTLD_LAZY := 1
  dlopen := fun file _ s =>
    if file = "libm.so.6" then (7, ⟨s.sessions + 1, s.lastError⟩)
    else (0, ⟨s.sessions, file ++ ": cannot open shared object file"⟩)
  dlerror := fun s => (s.lastError, ⟨s.sessions, ""⟩)
  dlsym := fun h symbol s =>
    if h = 7 ∧ symbol = "sqrt" then (4096, s)
    else (0, ⟨s.sessions, "undefined symbol: " ++ symbol⟩)
  dlclose := fun h s =>
    if h = 7 then (Outcome.returned closeStatus, ⟨s.sessions - 1, s.lastError⟩)
    else (Outcome.returned (-1), ⟨s.sessions, "invalid handle"⟩)

/-- The world before anything happened, for the sample loader. -/
def sampleWorld : World SampleState := ⟨⟨0, ""⟩, [], ""⟩

/-! ## Auxiliary facts -/

theorem closeCalls_append (xs ys : List Call) :
    closeCalls (xs ++ ys) = closeCalls xs ++ closeCalls ys := by
  induction xs with
  | nil => rfl
  | cons c cs ih => cases c <;> simp [closeCalls, ih]

theorem SymbolAddress_self {σ : Type} (L : Loader σ) (self : DynamicLibrary)
    (name : String) (w : World σ) :
    (DynamicLibrary.SymbolAddress L self name w).2.1 = self := by
  unfold DynamicLibrary.SymbolAddress
  split
  · rfl
  · dsimp only
    split <;> rfl

theorem resolveAll_self {σ : Type} (L : Loader σ) (self : DynamicLibrary)
    (names : List String) (w : World σ) :
    (resolveAll L self names w).2.1 = self := by
  induction names generalizing w with
  | nil => rfl
  | cons n ns ih =>
    simp only [resolveAll]
    rw [SymbolAddress_self, ih]

theorem SymbolAddress_closeCalls {σ : Type} (L : Loader σ) (self : DynamicLibrary)
    (name : String) (w : World σ) :
    closeCalls (DynamicLibrary.SymbolAddress L self name w).2.2.calls = closeCalls w.calls := by
  unfold DynamicLibrary.SymbolAddress
  split
  · rfl
  · dsimp only
    split <;> simp [closeCalls_append, closeCalls]

theorem resolveAll_closeCalls {σ : Type} (L : Loader σ) (self : DynamicLibrary)
    (names : List String) (w : World σ) :
    closeCalls (resolveAll L self names w).2.2.calls = closeCalls w.calls := by
  induction names generalizing w with
  | nil => rfl
  | cons n ns ih =>
    simp only [resolveAll]
    rw [SymbolAddress_self, ih, SymbolAddress_closeCalls]

theorem new_closeCalls {σ : Type} (L : Loader σ) (name : String) (w : World σ) :
    closeCalls (DynamicLibrary.new L name w).2.calls = closeCalls w.calls := by
  unfold DynamicLibrary.new
  dsimp only
  split <;> simp [closeCalls_append, closeCalls]

theorem delete_closeCalls {σ : Type} (L : Loader σ) (self : DynamicLibrary) (w : World σ) :
    closeCalls (DynamicLibrary.delete L self w).2.calls
      = closeCalls w.calls ++ [self.handle_] := by
  unfold DynamicLibrary.delete
  dsimp only
  split <;> simp [closeCalls_append, closeCalls]

/-- What the constructor gives when `dlopen` returns a non-null handle. -/
theorem new_of_open_ne_null {σ : Type} (L : Loader σ) (name : String) (w : World σ)
    (h : (L.dlopen (c_str name) L.RTLD_LAZY w.loader).1 ≠ nullptr) :
    DynamicLibrary.new L name w
      = (Except.ok ⟨name, (L.dlopen (c_str name) L.RTLD_LAZY w.loader).1⟩,
         ⟨(L.dlopen (c_str name) L.RTLD_LAZY w.loader).2,
          w.calls ++ [Call.dlopen (c_str name) L.RTLD_LAZY], w.cerr⟩) := by
  unfold DynamicLibrary.new
  dsimp only
  rw [if_neg h]

/-- What the constructor gives when `dlopen` returns the null handle. -/
theorem new_of_open_eq_null {σ : Type} (L : Loader σ) (name : String) (w : World σ)
    (h : (L.dlopen (c_str name) L.RTLD_LAZY w.loader).1 = nullptr) :
    DynamicLibrary.new L name w
      = (Except.error ⟨ExnKind.runtime_error, "Unable to open library: " ++ name ++
          (" due to " ++ (L.dlerror (L.dlopen (c_str name) L.RTLD_LAZY w.loader).2).1)⟩,
         ⟨(L.dlerror (L.dlopen (c_str name) L.RTLD_LAZY w.loader).2).2,
          w.calls ++ [Call.dlopen (c_str name) L.RTLD_LAZY] ++ [Call.dlerror], w.cerr⟩) := by
  unfold DynamicLibrary.new
  dsimp only
  rw [if_pos h]

/-- A successful constructor stores the supplied name and the handle `dlopen`
returned, and that handle is not null. -/
theorem new_ok_inv {σ : Type} (L : Loader σ) (name : String) (w w1 : World σ)
    (lib : DynamicLibrary) (h : DynamicLibrary.new L name w = (Except.ok lib, w1)) :
    lib.lib_name_ = name ∧
    lib.handle_ = (L.dlopen (c_str name) L.RTLD_LAZY w.loader).1 ∧
    lib.handle_ ≠ nullptr := by
  by_cases hn : (L.dlopen (c_str name) L.RTLD_LAZY w.loader).1 = nullptr
  · rw [new_of_open_eq_null L name w hn] at h
    simp at h
  · rw [new_of_open_ne_null L name w hn] at h
    simp only [Prod.mk.injEq, Except.ok.injEq] at h
    obtain ⟨h1, -⟩ := h
    subst h1
    exact ⟨rfl, rfl, hn⟩

/-- An exception of the constructor is a `std::runtime_error`. -/
theorem construct_open_null_kind {σ : Type} (L : Loader σ) (name : String) (w : World σ) :
    ∀ e, (DynamicLibrary.new L name w).1 = Except.error e → e.kind = ExnKind.runtime_error := by
  intro e he
  by_cases hn : (L.dlopen (c_str name) L.RTLD_LAZY w.loader).1 = nullptr
  · rw [new_of_open_eq_null L name w hn] at he
    simp only [Except.error.injEq] at he
    subst he
    rfl
  · rw [new_of_open_ne_null L name w hn] at he
    simp at he

/-- The outcome of `SymbolAddress` depends on the world through the result of
the lookup only. -/
theorem SymbolAddress_outcome_congr {σ : Type} (L : Loader σ) (self : DynamicLibrary)
    (name : String) (w w' : World σ) (hf : LookupIsFunction L) :
    (DynamicLibrary.SymbolAddress L self name w).1
      = (DynamicLibrary.SymbolAddress L self name w').1 := by
  unfold DynamicLibrary.SymbolAddress
  by_cases hh : self.handle_ = nullptr
  · rw [if_pos hh, if_pos hh]
  · rw [if_neg hh, if_neg hh]
    dsimp only
    rw [hf self.handle_ name w.loader w'.loader]
    split <;> rfl

/-- The lookup of the sample loader does not read the loader state. -/
theorem sampleLoader_lookup (closeStatus : Int) : LookupIsFunction (sampleLoader closeStatus) := by
  intro h symbol s s'
  simp only [sampleLoader]
  split <;> rfl

/-- When the `dlclose` call returns, with whatever status, the destructor
writes nothing to `std::cerr`. -/
theorem delete_cerr_of_returned {σ : Type} (L : Loader σ) (self : DynamicLibrary)
    (w : World σ) (status : Int)
    (h : (L.dlclose self.handle_ w.loader).1 = Outcome.returned status) :
    (DynamicLibrary.delete L self w).2.cerr = w.cerr := by
  unfold DynamicLibrary.delete
  dsimp only
  rw [h]

/-- When the `dlclose` call raises, the destructor writes one line to
`std::cerr`, with the name of the library. -/
theorem delete_cerr_of_raised {σ : Type} (L : Loader σ) (self : DynamicLibrary)
    (w : World σ) (h : (L.dlclose self.handle_ w.loader).1 = Outcome.raised) :
    (DynamicLibrary.delete L self w).2.cerr
      = w.cerr ++ "Unable to close library: " ++ self.lib_name_ ++ "\n" := by
  unfold DynamicLibrary.delete
  dsimp only
  rw [h]

/-- With a non-null handle, `SymbolAddress` makes one `dlsym` call, on the
handle and the symbol: the loader state after it is the state that call
leaves, and the call is appended to the calls made. -/
theorem SymbolAddress_world {σ : Type} (L : Loader σ) (self : DynamicLibrary)
    (name : String) (w : World σ) (hh : self.handle_ ≠ nullptr) :
    (DynamicLibrary.SymbolAddress L self name w).2.2.loader
      = (L.dlsym self.handle_ name w.loader).2 ∧
    (DynamicLibrary.SymbolAddress L self name w).2.2.calls
      = w.calls ++ [Call.dlsym self.handle_ name] := by
  unfold DynamicLibrary.SymbolAddress
  rw [if_neg hh]
  dsimp only
  split <;> exact ⟨rfl, rfl⟩

/-- With a non-null handle, a sequence of `SymbolAddress` calls makes the
`dlsym` calls of its symbols, in order, and no other call into the loader. -/
theorem resolveAll_world {σ : Type} (L : Loader σ) (self : DynamicLibrary)
    (names : List String) (w : World σ) (hh : self.handle_ ≠ nullptr) :
    (resolveAll L self names w).2.2.loader
      = names.foldl (fun s n => (L.dlsym self.handle_ n s).2) w.loader ∧
    (resolveAll L self names w).2.2.calls
      = w.calls ++ names.map (Call.dlsym self.handle_) := by
  induction names generalizing w with
  | nil => simp [resolveAll]
  | cons n ns ih =>
    obtain ⟨hl, hc⟩ := SymbolAddress_world L self n w hh
    obtain ⟨il, ic⟩ := ih (DynamicLibrary.SymbolAddress L self n w).2.2
    simp only [resolveAll, SymbolAddress_self, List.foldl_cons, List.map_cons]
    rw [il, ic, hl, hc]
    simp

/-- The destructor makes one `dlclose` call, on the handle of the object: the
loader state after it is the state that call leaves, and the call is appended
to the calls made. -/
theorem delete_world {σ : Type} (L : Loader σ) (self : DynamicLibrary) (w : World σ) :
    (DynamicLibrary.delete L self w).2.loader = (L.dlclose self.handle_ w.loader).2 ∧
    (DynamicLibrary.delete L self w).2.calls = w.calls ++ [Call.dlclose self.handle_] := by
  unfold DynamicLibrary.delete
  dsimp only
  split <;> exact ⟨rfl, rfl⟩

/-- The world a returning constructor leaves: the loader state after its
`dlopen` call, and that call appended to the calls made. -/
theorem new_ok_world {σ : Type} (L : Loader σ) (name : String) (w w1 : World σ)
    (lib : DynamicLibrary) (h : DynamicLibrary.new L name w = (Except.ok lib, w1)) :
    w1.loader = (L.dlopen (c_str name) L.RTLD_LAZY w.loader).2 ∧
    w1.calls = w.calls ++ [Call.dlopen (c_str name) L.RTLD_LAZY] := by
  by_cases hn : (L.dlopen (c_str name) L.RTLD_LAZY w.loader).1 = nullptr
  · rw [new_of_open_eq_null L name w hn] at h
    simp at h
  · rw [new_of_open_ne_null L name w hn] at h
    simp only [Prod.mk.injEq, Except.ok.injEq] at h
    obtain ⟨-, h2⟩ := h
    subst h2
    exact ⟨rfl, rfl⟩

/-! ## The claims -/

/-- C1: the constructor throws exactly when the `dlopen` call it makes returns
the null handle, and the exception it throws is then a `std::runtime_error`
whose text is `"Unable to open library: "`, the supplied name, `" due to "` and
the string `dlerror` returns after that `dlopen`; the text contains the
supplied name. -/
theorem construct_fails_iff_open_null {σ : Type} (L : Loader σ) (name : String)
    (w : World σ) :
    (Throws (DynamicLibrary.new L name w).1 ↔
      (L.dlopen (c_str name) L.RTLD_LAZY w.loader).1 = nullptr) ∧
    (∀ e, (DynamicLibrary.new L name w).1 = Except.error e →
      e.kind = ExnKind.runtime_error ∧
      e.what = "Unable to open library: " ++ name ++ " due to " ++
        (L.dlerror (L.dlopen (c_str name) L.RTLD_LAZY w.loader).2).1 ∧
      Contains e.what name) := by
  by_cases hn : (L.dlopen (c_str name) L.RTLD_LAZY w.loader).1 = nullptr
  · rw [new_of_open_eq_null L name w hn]
    refine ⟨⟨fun _ => hn, fun _ => ⟨_, rfl⟩⟩, ?_⟩
    intro e he
    simp only [Except.error.injEq] at he
    subst he
    exact ⟨rfl, (String.append_assoc _ _ _).symm, ⟨_, _, rfl⟩⟩
  · rw [new_of_open_ne_null L name w hn]
    refine ⟨⟨?_, fun h => absurd h hn⟩, ?_⟩
    · rintro ⟨e, he⟩
      simp at he
    · intro e he
      simp at he

/-- C1, at the sample loader and a library it does not know. -/
theorem construct_fails_iff_open_null_witness :
    (DynamicLibrary.new (sampleLoader 0) "does_not_exist.so" sampleWorld).1
      = Except.error ⟨ExnKind.runtime_error,
        "Unable to open library: does_not_exist.so due to does_not_exist.so: cannot open shared object file"⟩ ∧
    Contains
      "Unable to open library: does_not_exist.so due to does_not_exist.so: cannot open shared object file"
      "does_not_exist.so" :=
  ⟨rfl, ((construct_fails_iff_open_null (sampleLoader 0) "does_not_exist.so" sampleWorld).2
    ⟨ExnKind.runtime_error,
      "Unable to open library: does_not_exist.so due to does_not_exist.so: cannot open shared object file"⟩
    rfl).2.2⟩

/-- C2: on an object whose handle is not null, when `dlsym` returns null for
the symbol, `SymbolAddress` throws a `std::invalid_argument` whose text is the
library name, `": error loading symbol: "` and the symbol name; the text
contains the library name and the symbol name. -/
theorem resolve_symbol_absent {σ : Type} (L : Loader σ) (self : DynamicLibrary)
    (name : String) (w : World σ) (hh : self.handle_ ≠ nullptr)
    (hs : (L.dlsym self.handle_ name w.loader).1 = nullptr) :
    (DynamicLibrary.SymbolAddress L self name w).1
      = Except.error ⟨ExnKind.invalid_argument,
          self.lib_name_ ++ ": error loading symbol: " ++ name⟩ ∧
    Contains (self.lib_name_ ++ ": error loading symbol: " ++ name) self.lib_name_ ∧
    Contains (self.lib_name_ ++ ": error loading symbol: " ++ name) name := by
  refine ⟨?_, ⟨"", ": error loading symbol: " ++ name, ?_⟩, ⟨self.lib_name_ ++ ": error loading symbol: ", "", ?_⟩⟩
  · unfold DynamicLibrary.SymbolAddress
    rw [if_neg hh]
    dsimp only
    rw [if_pos hs]
  · simp [String.append_assoc]
  · simp

/-- C2, at the sample loader: `libm.so.6` does not export the symbol. -/
theorem resolve_symbol_absent_witness :
    (⟨"libm.so.6", 7⟩ : DynamicLibrary).handle_ ≠ nullptr ∧
    ((sampleLoader 0).dlsym 7 "definitely_not_a_real_symbol_xyz" sampleWorld.loader).1 = nullptr ∧
    (DynamicLibrary.SymbolAddress (sampleLoader 0) ⟨"libm.so.6", 7⟩
        "definitely_not_a_real_symbol_xyz" sampleWorld).1
      = Except.error ⟨ExnKind.invalid_argument,
          "libm.so.6: error loading symbol: definitely_not_a_real_symbol_xyz"⟩ :=
  ⟨by decide, by decide,
    (resolve_symbol_absent (sampleLoader 0) ⟨"libm.so.6", 7⟩
      "definitely_not_a_real_symbol_xyz" sampleWorld (by decide) (by decide)).1⟩

/-- C3: on an object whose handle is not null, `SymbolAddress` returns exactly
when the `dlsym` call on the object's handle and the symbol gives a non-null
address, and what it returns is that address, which is not null. -/
theorem resolve_succeeds_iff {σ : Type} (L : Loader σ) (self : DynamicLibrary)
    (name : String) (w : World σ) (hh : self.handle_ ≠ nullptr) :
    ((∃ a, (DynamicLibrary.SymbolAddress L self name w).1 = Except.ok a) ↔
      (L.dlsym self.handle_ name w.loader).1 ≠ nullptr) ∧
    (∀ a, (DynamicLibrary.SymbolAddress L self name w).1 = Except.ok a →
      a = (L.dlsym self.handle_ name w.loader).1 ∧ a ≠ nullptr) := by
  unfold DynamicLibrary.SymbolAddress
  rw [if_neg hh]
  dsimp only
  by_cases hs : (L.dlsym self.handle_ name w.loader).1 = nullptr
  · rw [if_pos hs]
    refine ⟨⟨?_, fun h => absurd hs h⟩, ?_⟩
    · rintro ⟨a, ha⟩
      simp at ha
    · intro a ha
      simp at ha
  · rw [if_neg hs]
    refine ⟨⟨fun _ => hs, fun _ => ⟨_, rfl⟩⟩, ?_⟩
    intro a ha
    simp only [Except.ok.injEq] at ha
    subst ha
    exact ⟨rfl, hs⟩

/-- C3, at the sample loader: `sqrt` resolves to the address the loader gives. -/
theorem resolve_succeeds_iff_witness :
    (⟨"libm.so.6", 7⟩ : DynamicLibrary).handle_ ≠ nullptr ∧
    (DynamicLibrary.SymbolAddress (sampleLoader 0) ⟨"libm.so.6", 7⟩ "sqrt" sampleWorld).1
      = Except.ok 4096 ∧
    (4096 : Ptr) = ((sampleLoader 0).dlsym 7 "sqrt" sampleWorld.loader).1 ∧
    (4096 : Ptr) ≠ nullptr :=
  ⟨by decide, rfl,
    (resolve_succeeds_iff (sampleLoader 0) ⟨"libm.so.6", 7⟩ "sqrt" sampleWorld
      (by decide)).2 4096 rfl⟩

/-- C4: when the constructor returns, the object's handle is the handle
`dlopen` returned, it is not null, and the object's name is the supplied name;
after any sequence of `SymbolAddress` calls, returning or throwing, the object
is the same, and none of these calls throws a `std::runtime_error`, the
exception of the null-handle check. -/
theorem constructed_handle_invariant {σ : Type} (L : Loader σ) (name : String)
    (w w1 : World σ) (lib : DynamicLibrary) (symbols : List String)
    (h : DynamicLibrary.new L name w = (Except.ok lib, w1)) :
    lib.handle_ = (L.dlopen (c_str name) L.RTLD_LAZY w.loader).1 ∧
    lib.handle_ ≠ nullptr ∧
    lib.lib_name_ = name ∧
    (resolveAll L lib symbols w1).2.1.handle_ = (L.dlopen (c_str name) L.RTLD_LAZY w.loader).1 ∧
    (resolveAll L lib symbols w1).2.1.handle_ ≠ nullptr ∧
    (resolveAll L lib symbols w1).2.1.lib_name_ = name ∧
    (∀ r ∈ (resolveAll L lib symbols w1).1, ∀ e, r = Except.error e →
      e.kind ≠ ExnKind.runtime_error) := by
  obtain ⟨hname, hhandle, hne⟩ := new_ok_inv L name w w1 lib h
  rw [resolveAll_self]
  refine ⟨hhandle, hne, hname, hhandle, hne, hname, ?_⟩
  clear h
  induction symbols generalizing w1 with
  | nil =>
    intro r hr
    simp [resolveAll] at hr
  | cons n ns ih =>
    intro r hr e he
    simp only [resolveAll, List.mem_cons] at hr
    rcases hr with hr | hr
    · subst hr
      unfold DynamicLibrary.SymbolAddress at he
      rw [if_neg hne] at he
      dsimp only at he
      split at he
      · simp only [Except.error.injEq] at he
        subst he
        simp
      · simp at he
    · rw [SymbolAddress_self] at hr
      exact ih _ r hr e he

/-- C4, at the sample loader: `libm.so.6` opens at handle `7`. -/
theorem constructed_handle_invariant_witness :
    DynamicLibrary.new (sampleLoader 0) "libm.so.6" sampleWorld
      = (Except.ok ⟨"libm.so.6", 7⟩,
         ⟨⟨1, ""⟩, [Call.dlopen "libm.so.6" 1], ""⟩) ∧
    (resolveAll (sampleLoader 0) ⟨"libm.so.6", 7⟩ ["sqrt", "nope", "sqrt"]
      ⟨⟨1, ""⟩, [Call.dlopen "libm.so.6" 1], ""⟩).2.1.handle_ ≠ nullptr :=
  ⟨rfl, (constructed_handle_invariant (sampleLoader 0) "libm.so.6" sampleWorld
    ⟨⟨1, ""⟩, [Call.dlopen "libm.so.6" 1], ""⟩ ⟨"libm.so.6", 7⟩
    ["sqrt", "nope", "sqrt"] rfl).2.2.2.2.1⟩

/-- C5: neither the constructor nor `SymbolAddress` calls `dlclose`, the
destructor calls it once, on the object's handle; so over the lifetime of an
object whose constructor returned, whatever `SymbolAddress` calls are made on
it, `dlclose` is called exactly once, on the handle `dlopen` returned.

This is stated on the calls recorded and on the loader itself.  The calls: the
constructor adds its `dlopen` call, the `SymbolAddress` calls add their `dlsym`
calls, the destructor adds one `dlclose` call on the handle `dlopen` returned.
The loader: its state after the constructor is the one `dlopen` leaves, after
the `SymbolAddress` calls the one their `dlsym` calls leave in turn, and after
the destructor the one a single `dlclose` of that handle leaves from there. -/
theorem close_exactly_once {σ : Type} (L : Loader σ) (name : String)
    (symbols : List String) (w w1 : World σ) (lib : DynamicLibrary)
    (h : DynamicLibrary.new L name w = (Except.ok lib, w1)) :
    closeCalls w1.calls = closeCalls w.calls ∧
    closeCalls (resolveAll L lib symbols w1).2.2.calls = closeCalls w1.calls ∧
    closeCalls (DynamicLibrary.delete L (resolveAll L lib symbols w1).2.1
        (resolveAll L lib symbols w1).2.2).2.calls
      = closeCalls (resolveAll L lib symbols w1).2.2.calls
        ++ [(L.dlopen (c_str name) L.RTLD_LAZY w.loader).1] ∧
    closeCalls (lifetime L name symbols w).2.calls
      = closeCalls w.calls ++ [(L.dlopen (c_str name) L.RTLD_LAZY w.loader).1] ∧
    (w1.loader = (L.dlopen (c_str name) L.RTLD_LAZY w.loader).2 ∧
      w1.calls = w.calls ++ [Call.dlopen (c_str name) L.RTLD_LAZY]) ∧
    ((resolveAll L lib symbols w1).2.2.loader
        = symbols.foldl
            (fun s n => (L.dlsym (L.dlopen (c_str name) L.RTLD_LAZY w.loader).1 n s).2)
            w1.loader ∧
      (resolveAll L lib symbols w1).2.2.calls
        = w1.calls
          ++ symbols.map (Call.dlsym (L.dlopen (c_str name) L.RTLD_LAZY w.loader).1)) ∧
    ((DynamicLibrary.delete L (resolveAll L lib symbols w1).2.1
          (resolveAll L lib symbols w1).2.2).2.loader
        = (L.dlclose (L.dlopen (c_str name) L.RTLD_LAZY w.loader).1
            (resolveAll L lib symbols w1).2.2.loader).2 ∧
      (DynamicLibrary.delete L (resolveAll L lib symbols w1).2.1
          (resolveAll L lib symbols w1).2.2).2.calls
        = (resolveAll L lib symbols w1).2.2.calls
          ++ [Call.dlclose (L.dlopen (c_str name) L.RTLD_LAZY w.loader).1]) ∧
    ((lifetime L name symbols w).2.loader
        = (L.dlclose (L.dlopen (c_str name) L.RTLD_LAZY w.loader).1
            (symbols.foldl
              (fun s n => (L.dlsym (L.dlopen (c_str name) L.RTLD_LAZY w.loader).1 n s).2)
              (L.dlopen (c_str name) L.RTLD_LAZY w.loader).2)).2 ∧
      (lifetime L name symbols w).2.calls
        = w.calls ++ [Call.dlopen (c_str name) L.RTLD_LAZY]
          ++ symbols.map (Call.dlsym (L.dlopen (c_str name) L.RTLD_LAZY w.loader).1)
          ++ [Call.dlclose (L.dlopen (c_str name) L.RTLD_LAZY w.loader).1]) := by
  obtain ⟨-, hhandle, hne⟩ := new_ok_inv L name w w1 lib h
  obtain ⟨hwl, hwc⟩ := new_ok_world L name w w1 lib h
  have hnew : closeCalls w1.calls = closeCalls w.calls := by
    have := new_closeCalls L name w
    rw [h] at this
    exact this
  have hdel := delete_closeCalls L (resolveAll L lib symbols w1).2.1
    (resolveAll L lib symbols w1).2.2
  rw [resolveAll_self, hhandle] at hdel
  obtain ⟨hrl, hrc⟩ := resolveAll_world L lib symbols w1 hne
  rw [hhandle] at hrl hrc
  obtain ⟨hdl, hdc⟩ := delete_world L (resolveAll L lib symbols w1).2.1
    (resolveAll L lib symbols w1).2.2
  rw [resolveAll_self, hhandle] at hdl hdc
  have hlife : (lifetime L name symbols w).2
      = (DynamicLibrary.delete L (resolveAll L lib symbols w1).2.1
          (resolveAll L lib symbols w1).2.2).2 := by
    unfold lifetime
    rw [h]
  refine ⟨hnew, resolveAll_closeCalls L lib symbols w1, ?_, ?_, ⟨hwl, hwc⟩, ⟨hrl, hrc⟩,
    ?_, ?_, ?_⟩
  · rw [resolveAll_self]
    exact hdel
  · rw [hlife, resolveAll_self, hdel, resolveAll_closeCalls, hnew]
  · rw [resolveAll_self]
    exact ⟨hdl, hdc⟩
  · rw [hlife, resolveAll_self, hdl, hrl, hwl]
  · rw [hlife, resolveAll_self, hdc, hrc, hwc]

/-- C5, at the sample loader with two sessions of the library already open:
one `dlclose`, on handle `7`, after three `SymbolAddress` calls of which one
throws; of the three sessions then open, one is released. -/
theorem close_exactly_once_witness :
    DynamicLibrary.new (sampleLoader 0) "libm.so.6" ⟨⟨2, ""⟩, [], ""⟩
      = (Except.ok ⟨"libm.so.6", 7⟩,
         ⟨⟨3, ""⟩, [Call.dlopen "libm.so.6" 1], ""⟩) ∧
    closeCalls (lifetime (sampleLoader 0) "libm.so.6" ["sqrt", "nope", "sqrt"]
      ⟨⟨2, ""⟩, [], ""⟩).2.calls = [7] ∧
    (lifetime (sampleLoader 0) "libm.so.6" ["sqrt", "nope", "sqrt"]
      ⟨⟨2, ""⟩, [], ""⟩).2.loader.sessions = 2 ∧
    (lifetime (sampleLoader 0) "libm.so.6" ["sqrt", "nope", "sqrt"] ⟨⟨2, ""⟩, [], ""⟩).2.calls
      = [Call.dlopen "libm.so.6" 1, Call.dlsym 7 "sqrt", Call.dlsym 7 "nope",
         Call.dlsym 7 "sqrt", Call.dlclose 7] :=
  ⟨rfl, (close_exactly_once (sampleLoader 0) "libm.so.6" ["sqrt", "nope", "sqrt"]
    ⟨⟨2, ""⟩, [], ""⟩ ⟨⟨3, ""⟩, [Call.dlopen "libm.so.6" 1], ""⟩ ⟨"libm.so.6", 7⟩ rfl).2.2.2.1,
    rfl, rfl⟩

/-- C6, the destructor at a failing `dlclose`: the sample loader whose
`dlclose` returns the status `-1` for the open handle `7`.  The destructor
returns, and nothing has been written to `std::cerr`: the status is discarded
and the handler of the `try` block is not entered. -/
theorem destructor_silent_when_close_fails :
    ((sampleLoader (-1)).dlclose 7 ⟨1, ""⟩).1 = Outcome.returned (-1) ∧
    DynamicLibrary.delete (sampleLoader (-1)) ⟨"libm.so.6", 7⟩
        ⟨⟨1, ""⟩, [Call.dlopen "libm.so.6" 1], ""⟩
      = (Except.ok (), ⟨⟨0, ""⟩, [Call.dlopen "libm.so.6" 1, Call.dlclose 7], ""⟩) ∧
    (lifetime (sampleLoader (-1)) "libm.so.6" [] sampleWorld).2.cerr = "" :=
  ⟨rfl, rfl, rfl⟩

/-- C7: whatever the `dlclose` call does (returns any status, or raises), the
destructor returns: it throws nothing. -/
theorem destructor_never_throws {σ : Type} (L : Loader σ) (self : DynamicLibrary)
    (w : World σ) :
    (DynamicLibrary.delete L self w).1 = Except.ok () := by
  unfold DynamicLibrary.delete
  dsimp only
  split <;> rfl

/-- C8 as stated fails: at the sample loader, the exception of a constructor
that cannot open the library and the exception of `SymbolAddress` on a null
handle have the same class, `std::runtime_error`, so the three classes are not
pairwise different. -/
theorem error_kinds_not_pairwise_different :
    thrownKind (DynamicLibrary.new (sampleLoader 0) "does_not_exist.so" sampleWorld).1
      = some ExnKind.runtime_error ∧
    thrownKind (DynamicLibrary.SymbolAddress (sampleLoader 0) ⟨"libm.so.6", nullptr⟩
        "sqrt" sampleWorld).1 = some ExnKind.runtime_error ∧
    thrownKind (DynamicLibrary.SymbolAddress (sampleLoader 0) ⟨"libm.so.6", 7⟩
        "nope" sampleWorld).1 = some ExnKind.invalid_argument ∧
    ¬ (thrownKind (DynamicLibrary.new (sampleLoader 0) "does_not_exist.so" sampleWorld).1
          ≠ thrownKind (DynamicLibrary.SymbolAddress (sampleLoader 0)
              ⟨"libm.so.6", nullptr⟩ "sqrt" sampleWorld).1 ∧
       thrownKind (DynamicLibrary.new (sampleLoader 0) "does_not_exist.so" sampleWorld).1
          ≠ thrownKind (DynamicLibrary.SymbolAddress (sampleLoader 0)
              ⟨"libm.so.6", 7⟩ "nope" sampleWorld).1 ∧
       thrownKind (DynamicLibrary.SymbolAddress (sampleLoader 0)
              ⟨"libm.so.6", nullptr⟩ "sqrt" sampleWorld).1
          ≠ thrownKind (DynamicLibrary.SymbolAddress (sampleLoader 0)
              ⟨"libm.so.6", 7⟩ "nope" sampleWorld).1) :=
  ⟨rfl, rfl, rfl, fun h => h.1 rfl⟩

/-- C8, amended: a constructor that throws throws a `std::runtime_error`;
`SymbolAddress` throws a `std::runtime_error` exactly when the handle is null
and a `std::invalid_argument` exactly when the handle is not null and `dlsym`
returns null.  So the two failures of `SymbolAddress` differ in class, the
symbol failure differs in class from the constructor's failure, and the
constructor's failure and the null-handle failure, of one class, come from
different operations. -/
theorem error_kinds_by_operation {σ : Type} (L : Loader σ) (name : String)
    (w : World σ) (self : DynamicLibrary) (symbol : String) (w' : World σ) :
    (Throws (DynamicLibrary.new L name w).1 →
      thrownKind (DynamicLibrary.new L name w).1 = some ExnKind.runtime_error) ∧
    (thrownKind (DynamicLibrary.SymbolAddress L self symbol w').1
        = some ExnKind.runtime_error ↔ self.handle_ = nullptr) ∧
    (thrownKind (DynamicLibrary.SymbolAddress L self symbol w').1
        = some ExnKind.invalid_argument ↔
      self.handle_ ≠ nullptr ∧ (L.dlsym self.handle_ symbol w'.loader).1 = nullptr) ∧
    ExnKind.runtime_error ≠ ExnKind.invalid_argument := by
  refine ⟨?_, ?_, ?_, by decide⟩
  · rintro ⟨e, he⟩
    have hk := ((construct_open_null_kind L name w) e he)
    rw [he]
    simp [thrownKind, hk]
  · unfold DynamicLibrary.SymbolAddress
    by_cases hh : self.handle_ = nullptr
    · rw [if_pos hh]
      simp [thrownKind, hh]
    · rw [if_neg hh]
      dsimp only
      split <;> simp [thrownKind, hh]
  · unfold DynamicLibrary.SymbolAddress
    by_cases hh : self.handle_ = nullptr
    · rw [if_pos hh]
      simp [thrownKind, hh]
    · rw [if_neg hh]
      dsimp only
      by_cases hs : (L.dlsym self.handle_ symbol w'.loader).1 = nullptr
      · rw [if_pos hs]
        simp [thrownKind, hh, hs]
      · rw [if_neg hs]
        simp [thrownKind, hs]

/-- C8 amended, at the sample loader: the constructor's failure. -/
theorem error_kinds_by_operation_witness :
    Throws (DynamicLibrary.new (sampleLoader 0) "does_not_exist.so" sampleWorld).1 ∧
    thrownKind (DynamicLibrary.new (sampleLoader 0) "does_not_exist.so" sampleWorld).1
      = some ExnKind.runtime_error :=
  ⟨⟨_, rfl⟩, (error_kinds_by_operation (sampleLoader 0) "does_not_exist.so" sampleWorld
    ⟨"libm.so.6", 7⟩ "nope" sampleWorld).1 ⟨_, rfl⟩⟩

/-- C9: `SymbolAddress` leaves the object as it is; when the lookup of the
loader is a function of the handle and the symbol name, two calls with the
same symbol name on one object, with any `SymbolAddress` calls in between,
have the same outcome: the same address, or the same exception.  (This holds
for a null handle too.) -/
theorem resolve_idempotent {σ : Type} (L : Loader σ) (self : DynamicLibrary)
    (name : String) (between : List String) (w : World σ)
    (hf : LookupIsFunction L) :
    (DynamicLibrary.SymbolAddress L self name w).2.1 = self ∧
    (resolveAll L (DynamicLibrary.SymbolAddress L self name w).2.1 between
      (DynamicLibrary.SymbolAddress L self name w).2.2).2.1 = self ∧
    (DynamicLibrary.SymbolAddress L
      (resolveAll L (DynamicLibrary.SymbolAddress L self name w).2.1 between
        (DynamicLibrary.SymbolAddress L self name w).2.2).2.1 name
      (resolveAll L (DynamicLibrary.SymbolAddress L self name w).2.1 between
        (DynamicLibrary.SymbolAddress L self name w).2.2).2.2).1
      = (DynamicLibrary.SymbolAddress L self name w).1 := by
  refine ⟨SymbolAddress_self L self name w, ?_, ?_⟩
  · rw [resolveAll_self, SymbolAddress_self]
  · rw [resolveAll_self, SymbolAddress_self]
    exact SymbolAddress_outcome_congr L self name _ _ hf

/-- C9, at the sample loader, whose lookup does not read the loader state. -/
theorem resolve_idempotent_witness :
    LookupIsFunction (sampleLoader 0) ∧
    (DynamicLibrary.SymbolAddress (sampleLoader 0)
      (resolveAll (sampleLoader 0)
        (DynamicLibrary.SymbolAddress (sampleLoader 0) ⟨"libm.so.6", 7⟩ "sqrt" sampleWorld).2.1
        ["nope", "cos"]
        (DynamicLibrary.SymbolAddress (sampleLoader 0) ⟨"libm.so.6", 7⟩ "sqrt" sampleWorld).2.2).2.1
      "sqrt"
      (resolveAll (sampleLoader 0)
        (DynamicLibrary.SymbolAddress (sampleLoader 0) ⟨"libm.so.6", 7⟩ "sqrt" sampleWorld).2.1
        ["nope", "cos"]
        (DynamicLibrary.SymbolAddress (sampleLoader 0) ⟨"libm.so.6", 7⟩ "sqrt" sampleWorld).2.2).2.2).1
      = (DynamicLibrary.SymbolAddress (sampleLoader 0) ⟨"libm.so.6", 7⟩ "sqrt" sampleWorld).1 :=
  ⟨sampleLoader_lookup 0,
    (resolve_idempotent (sampleLoader 0) ⟨"libm.so.6", 7⟩ "sqrt" ["nope", "cos"] sampleWorld
      (sampleLoader_lookup 0)).2.2⟩

/-- C10: on an object whose handle is null, `SymbolAddress` throws a
`std::runtime_error` with the text `"Handle to library is nullptr"`, for every
loader, and the world is as before: no call into the loader has been made. -/
theorem resolve_null_handle {σ : Type} (L : Loader σ) (self : DynamicLibrary)
    (name : String) (w : World σ) (hh : self.handle_ = nullptr) :
    DynamicLibrary.SymbolAddress L self name w
      = (Except.error ⟨ExnKind.runtime_error, "Handle to library is nullptr"⟩, self, w) := by
  unfold DynamicLibrary.SymbolAddress
  rw [if_pos hh]

/-- C10, at the sample loader, for a symbol the loader would find. -/
theorem resolve_null_handle_witness :
    (⟨"libm.so.6", 0⟩ : DynamicLibrary).handle_ = nullptr ∧
    DynamicLibrary.SymbolAddress (sampleLoader 0) ⟨"libm.so.6", 0⟩ "sqrt" sampleWorld
      = (Except.error ⟨ExnKind.runtime_error, "Handle to library is nullptr"⟩,
         ⟨"libm.so.6", 0⟩, sampleWorld) :=
  ⟨rfl, resolve_null_handle (sampleLoader 0) ⟨"libm.so.6", 0⟩ "sqrt" sampleWorld rfl⟩

end CudaHook
